import Mathlib

/-!
Verification development for the JARVIS voice-assistant pipeline.

Shallow embedding of the repository's core modules:
 - `src/core/security.py`   (SecurityValidator)
 - `src/tools/base.py`, `src/tools/registry.py`   (tool registry)
 - `src/core/stt.py`   (WhisperSTT.transcribe)
 - `src/api/server.py`   (event bridge: jarvis_update_callback / broadcast)
 - `src/core/intent.py`   (IntentParser)
 - `src/core/audio_input.py`   (voice-activity segmenter)
 - `src/main.py`   (JARVIS.process_audio turn handler)

Python strings are modelled as Lean `String` (ASCII inputs), Python
exceptions as `Except String`, Python dicts of keyword arguments as
association lists `List (String × String)`, and collaborator calls that
perform external effects as oracle functions supplied in an environment
record.  Floating-point energies are modelled as rationals.
-/

namespace JarvisSpec

/-! Python string primitives used throughout the source. -/

/-- Python `needle in haystack` (substring containment). -/
def pyContains (needle haystack : String) : Bool :=
  decide (needle.toList <:+: haystack.toList)

/-- Python `str.lower()` (ASCII inputs). -/
def pyLower (s : String) : String := String.mk (s.toList.map Char.toLower)

/-- Python `str.startswith(pre)`. -/
def pyStartsWith (s pre : String) : Bool := pre.toList.isPrefixOf s.toList

/-- Python `str.strip()`: remove leading and trailing whitespace. -/
def pyStrip (s : String) : String :=
  String.mk (((s.toList.dropWhile Char.isWhitespace).reverse.dropWhile Char.isWhitespace).reverse)

/-- Python `str.rstrip(chars)`: remove trailing characters drawn from `chars`. -/
def pyRstripChars (chars : List Char) (s : String) : String :=
  String.mk ((s.toList.reverse.dropWhile (fun c => chars.contains c)).reverse)

/-- Python `or` on an optional string with a default: `x or d` is `d` when
`x` is `None` or the empty string. -/
def pyOrStr (o : Option String) (d : String) : String :=
  match o with
  | some l => if l == "" then d else l
  | none => d

/-- Rendering of a Python dict of string keyword arguments by `str(params)`,
as consumed by the security validator's substring checks. -/
def pyDictStr (ps : List (String × String)) : String :=
  "\x7b" ++ String.intercalate ", "
    (ps.map (fun p => "\x27" ++ p.1 ++ "\x27: \x27" ++ p.2 ++ "\x27")) ++ "\x7d"

/-- Python `dict.get(key, "")` on a string-valued kwargs dict. -/
def pyGet (ps : List (String × String)) (key : String) : String :=
  match ps.find? (fun kv => kv.1 == key) with
  | some kv => kv.2
  | none => ""

/-! Security module, from `src/core/security.py`. -/

/-- Risk classification for tools and actions (`RiskLevel`). -/
inductive RiskLevel where
  | safe
  | moderate
  | high_risk
  | forbidden
deriving DecidableEq

/-- Security policy configuration (`SecurityPolicy` dataclass defaults). -/
structure SecurityPolicy where
  allow_file_read : Bool := true
  allow_file_write : Bool := false
  allow_file_delete : Bool := false
  allow_file_modify : Bool := false
  allow_system_shutdown : Bool := false
  allow_system_restart : Bool := false
  allow_registry_access : Bool := false
  allow_software_install : Bool := false
  allow_web_search : Bool := true
  allow_url_open : Bool := true
  allow_auto_download : Bool := false
  allow_form_submission : Bool := false
  allow_web_login : Bool := false
  allow_autonomous_scheduling : Bool := false
  allow_background_triggers : Bool := false
  allow_unregistered_tools : Bool := false
  require_api_auth : Bool := true
  allow_remote_commands : Bool := false
  require_confirmation_for_high_risk : Bool := true
  max_response_length : Nat := 500
deriving DecidableEq

/-- The default security policy (all dataclass defaults). -/
def default_policy : SecurityPolicy := {}

/-- Keywords that are never allowed (`SecurityValidator.forbidden_keywords`). -/
def forbidden_keywords : List String :=
  ["delete", "remove", "uninstall", "shutdown", "restart",
   "reboot", "logout", "registry", "regedit", "format",
   "rm -rf", "del /f", "rmdir", "kill process"]

/-- Keywords that require confirmation (`SecurityValidator.high_risk_keywords`). -/
def high_risk_keywords : List String :=
  ["install", "download", "upload", "execute", "run script",
   "modify", "overwrite", "change settings", "admin"]

/-- Risk classification of a tool (`SecurityValidator.classify_tool`). -/
def classify_tool (tool_name tool_description : String) : RiskLevel :=
  let tool_lower := pyLower tool_name
  let desc_lower := pyLower tool_description
  let combined := tool_lower ++ " " ++ desc_lower
  if forbidden_keywords.any (fun k => pyContains k combined) then .forbidden
  else if high_risk_keywords.any (fun k => pyContains k combined) then .high_risk
  else if ["system", "admin", "registry", "process"].any (fun x => pyContains x tool_lower) then
    .high_risk
  else if ["open", "play", "volume", "workspace"].any (fun x => pyContains x tool_lower) then
    .moderate
  else if ["get", "recall", "calculate", "time", "info", "stats"].any
      (fun x => pyContains x tool_lower) then
    .safe
  else .moderate

/-- Trusted-URL check (`SecurityValidator._is_trusted_url`). -/
def is_trusted_url (url : String) : Bool :=
  let url_lower := pyLower url
  if ["javascript:", "data:", "file://", "about:"].any (fun x => pyContains x url_lower) then
    false
  else if ["google.com", "youtube.com", "github.com",
           "stackoverflow.com", "wikipedia.org",
           "microsoft.com", "apple.com"].any (fun d => pyContains d url_lower) then
    true
  else if pyStartsWith url_lower "http://" || pyStartsWith url_lower "https://" then true
  else false

/-- Policy-specific restriction checks
(`SecurityValidator._validate_specific_restrictions`), an early-return
chain rendered as nested conditionals. -/
def validate_specific_restrictions (policy : SecurityPolicy) (tool_name : String)
    (params : List (String × String)) : Bool :=
  let tool_lower := pyLower tool_name
  let params_str := pyLower (pyDictStr params)
  if pyContains "file" tool_lower
      && (pyContains "delete" tool_lower || pyContains "remove" tool_lower) then
    policy.allow_file_delete
  else if pyContains "file" tool_lower
      && (pyContains "write" tool_lower || pyContains "create" tool_lower) then
    policy.allow_file_write
  else if pyContains "file" tool_lower
      && (pyContains "modify" tool_lower || pyContains "edit" tool_lower) then
    policy.allow_file_modify
  else if ["shutdown", "restart", "reboot"].any (fun x => pyContains x tool_lower) then
    policy.allow_system_shutdown || policy.allow_system_restart
  else if pyContains "registry" tool_lower then policy.allow_registry_access
  else if pyContains "install" tool_lower || pyContains "uninstall" tool_lower then
    policy.allow_software_install
  else if pyContains "download" tool_lower then policy.allow_auto_download
  else if pyContains "login" tool_lower || pyContains "signin" tool_lower then
    policy.allow_web_login
  else if pyContains "submit" tool_lower && pyContains "form" params_str then
    policy.allow_form_submission
  else if pyContains "url" params_str || pyContains "link" params_str then
    let url := pyGet params "url"
    if url != "" && !(is_trusted_url url) then false else true
  else true

/-- Action validation against the policy (`SecurityValidator.validate_action`):
returns `(is_allowed, reason_if_blocked)`. -/
def validate_action (policy : SecurityPolicy) (tool_name : String)
    (params : List (String × String)) (user_confirmed : Bool) : Bool × Option String :=
  let risk_level := classify_tool tool_name ""
  if risk_level = .forbidden then
    (false, some ("Action \x27" ++ tool_name ++ "\x27 is forbidden by security policy"))
  else if risk_level = .high_risk
      && policy.require_confirmation_for_high_risk && !user_confirmed then
    (false, some ("Action \x27" ++ tool_name ++ "\x27 requires explicit user confirmation"))
  else if !(validate_specific_restrictions policy tool_name params) then
    (false, some ("Action \x27" ++ tool_name ++ "\x27 violates specific security restrictions"))
  else (true, none)

/-! Tool registry, from `src/tools/base.py` and `src/tools/registry.py`. -/

/-- Tool execution result (`ToolResult`); the `Any` result is modelled as an
optional string. -/
structure ToolResult where
  success : Bool
  result : Option String := none
  error : Option String := none
deriving DecidableEq

/-- Tool parameter declaration (`ToolParameter`), reduced to the fields the
registry consults. -/
structure ToolParameter where
  name : String
  required : Bool := true
deriving DecidableEq

/-- A registered tool: its name, parameter declarations, and its `execute`
body, which may raise (modelled as `Except`). -/
structure Tool where
  name : String
  parameters : List ToolParameter
  run : List (String × String) → Except String ToolResult

/-- Required-parameter validation (`BaseTool.validate_parameters`): the first
required parameter missing from the kwargs yields the failure message. -/
def validate_parameters (t : Tool) (kwargs : List (String × String)) : Bool × Option String :=
  match t.parameters.find? (fun p => p.required && !(kwargs.any (fun kv => kv.1 == p.name))) with
  | some p => (false, some ("Missing required parameter: " ++ p.name))
  | none => (true, none)

/-- Registry lookup (`ToolRegistry.get_tool`); the registry dict is an
association list keyed by tool name. -/
def get_tool (reg : List Tool) (tool_name : String) : Option Tool :=
  reg.find? (fun t => t.name == tool_name)

/-- Tool execution through the registry (`ToolRegistry.execute`): unknown
tool and failed validation short-circuit to failure results, and an
exception raised by the tool body is caught and converted to a failure
result. -/
def registry_execute (reg : List Tool) (tool_name : String)
    (kwargs : List (String × String)) : ToolResult :=
  match get_tool reg tool_name with
  | none => { success := false, error := some ("Tool \x27" ++ tool_name ++ "\x27 not found") }
  | some tool =>
    match validate_parameters tool kwargs with
    | (false, msg) => { success := false, error := msg }
    | (true, _) =>
      match tool.run kwargs with
      | .ok r => r
      | .error e => { success := false, error := some ("Tool execution error: " ++ e) }

/-! Speech-to-text, from `src/core/stt.py`. -/

/-- Raw output of the whisper model call inside `WhisperSTT.transcribe`;
the `language` field is absent (`none`) when the model reports none. -/
structure WhisperRaw where
  text : String
  language : Option String := none
  segments : List String := []
deriving DecidableEq

/-- Result dictionary returned by `WhisperSTT.transcribe`. -/
structure TranscribeResult where
  text : String
  language : Option String
  segments : List String := []
deriving DecidableEq

/-- Embedding of `WhisperSTT.transcribe`.  `model_loaded` is whether
`self.model` is already set; `load_result` is the outcome of
`load_model()` when it has to load (which re-raises on failure, outside
the try block); `run_result` is the outcome of the inner
`self.model.transcribe(...)` call, whose exceptions are caught and
converted to an empty-text result; `cfg_language` is the configured
language and `language` the explicit argument. -/
def stt_transcribe (model_loaded : Bool) (load_result : Except String Unit)
    (run_result : Except String WhisperRaw)
    (cfg_language : Option String) (language : Option String) :
    Except String TranscribeResult :=
  match (if model_loaded then Except.ok () else load_result) with
  | .error e => .error e
  | .ok _ =>
    let language := match language with
      | none => cfg_language
      | some l => some l
    match run_result with
    | .ok r =>
      .ok { text := pyStrip r.text,
            language := match r.language with
              | some l => some l
              | none => language,
            segments := r.segments }
    | .error _ =>
      .ok { text := "", language := some (pyOrStr language "unknown"), segments := [] }

/-! Event bridge, from `src/api/server.py`. -/

/-- Outcome of publishing one pipeline event: dropped on the no-loop path,
otherwise the per-connection delivery outcomes of `broadcast`. -/
inductive PublishOutcome where
  | dropped
  | delivered (outcomes : List (Nat × Bool))
deriving DecidableEq

/-- Embedding of `ConnectionManager.broadcast`: each connection is sent the
message, a failed send is caught and logged, and the loop continues.  The
result records, per connection, whether its send succeeded. -/
def broadcast (conns : List Nat) (send : Nat → String → Except String Unit)
    (message : String) : List (Nat × Bool) :=
  conns.map (fun c =>
    match send c message with
    | .ok _ => (c, true)
    | .error _ => (c, false))

/-- Embedding of `jarvis_update_callback`: when no event loop is attached the
event is silently dropped; otherwise `broadcast` is scheduled on the loop
(`asyncio.run_coroutine_threadsafe`, fire-and-forget for the producer). -/
def jarvis_update_callback (loop_attached : Bool) (conns : List Nat)
    (send : Nat → String → Except String Unit) (event : String) : PublishOutcome :=
  if loop_attached then .delivered (broadcast conns send event) else .dropped

/-! Intent parsing, from `src/core/intent.py`. -/

/-- User intent kinds (`IntentType`). -/
inductive IntentType where
  | tool_call
  | memory_store
  | memory_recall
  | conversation
  | system_command
deriving DecidableEq

/-- Case-insensitive prefix test on character lists (regex alternatives are
matched with `re.IGNORECASE` against the original text). -/
def ciPrefixOf : List Char → List Char → Bool
  | [], _ => true
  | _ :: _, [] => false
  | p :: ps, c :: cs => (p.toLower == c.toLower) && ciPrefixOf ps cs

/-- Substring search for any of the given literal alternatives, as performed
by `re.search` on an alternation of literals. -/
def anySub (alts : List String) (s : String) : Bool :=
  alts.any (fun a => pyContains a s)

/-- Operator character class of the calculator pattern. -/
def isOpChar (c : Char) : Bool :=
  c == '+' || c == '-' || c == '*' || c == '/'

/-- Occurrence of the pattern digit, space, operator, space, digit at the
head of the list. -/
def arithAt (cs : List Char) : Bool :=
  match cs with
  | a :: ' ' :: b :: ' ' :: c :: _ => a.isDigit && isOpChar b && c.isDigit
  | _ => false

/-- Search for a digit-operator-digit arithmetic expression; equivalent to a
successful search of the second calculator alternative. -/
def hasArith : List Char → Bool
  | [] => false
  | c :: tl => arithAt (c :: tl) || hasArith tl

/-- Search for one of the phrases followed by a space and a digit, matching
the first calculator alternative. -/
def phraseThenDigit (p : String) (s : String) : Bool :=
  (List.range 10).any (fun d => pyContains (p ++ " " ++ toString d) s)

/-- Occurrence of `key` followed by at least one non-newline character, the
search semantics of a literal key before a `(.+)` group. -/
def keyThenAnyAt (key : List Char) (cs : List Char) : Bool :=
  key.isPrefixOf cs &&
    (match cs.drop key.length with
     | c :: _ => c != '\n'
     | [] => false)

/-- Scan for `key` followed by at least one non-newline character anywhere. -/
def scanKeyThenAny (key : List Char) : List Char → Bool
  | [] => false
  | c :: tl => keyThenAnyAt key (c :: tl) || scanKeyThenAny key tl

/-- One entry of the ordered intent rule table: a pattern matcher applied to
the lowercased stripped text, with the intent kind and tool it selects. -/
structure IntentRule where
  pat : String → Bool
  intent : IntentType
  tool : String

/-- Time-query rule. -/
def ruleTime : IntentRule :=
  ⟨anySub ["what time is it", "what date is it", "what\x27s the time",
           "what\x27s the date", "current time", "current date"],
   .tool_call, "GetTimeTool"⟩

/-- System-information rule. -/
def ruleSystem : IntentRule :=
  ⟨anySub ["system info", "system information", "how is the system",
           "how is my system", "how are the system", "how are my system",
           "system status"],
   .tool_call, "GetSystemInfoTool"⟩

/-- Calculator rule. -/
def ruleCalc : IntentRule :=
  ⟨fun s => (["calculate", "compute", "what is", "how much is"].any
               (fun p => phraseThenDigit p s)) || hasArith s.toList,
   .tool_call, "CalculatorTool"⟩

/-- Memory-storage rule. -/
def ruleRemember : IntentRule :=
  ⟨anySub ["remember that", "remember this", "store this", "store that",
           "save this", "save that"],
   .memory_store, "RememberTool"⟩

/-- Memory-recall rule. -/
def ruleRecall : IntentRule :=
  ⟨anySub ["do you remember", "recall", "what do you know about"],
   .memory_recall, "RecallTool"⟩

/-- Memory-statistics rule. -/
def ruleMemStats : IntentRule :=
  ⟨anySub ["memory stats", "memory statistics", "memory status"],
   .tool_call, "GetMemoryStatsTool"⟩

/-- Telegram-alert rule. -/
def ruleTelegram : IntentRule :=
  ⟨anySub ["notify me", "alert me", "remind me"], .tool_call, "TelegramAlertTool"⟩

/-- Application and settings control rule (fixed targets). -/
def ruleOpenSettings : IntentRule :=
  ⟨fun s => ["open", "launch", "show"].any (fun v =>
      ["settings", "system settings", "control panel", "bluetooth",
       "wifi", "network"].any (fun o => pyContains (v ++ " " ++ o) s)),
   .tool_call, "OpenAppTool"⟩

/-- Generic open/launch rule. -/
def ruleOpenAny : IntentRule :=
  ⟨fun s => scanKeyThenAny "open ".toList s.toList
         || scanKeyThenAny "launch ".toList s.toList,
   .tool_call, "OpenAppTool"⟩

/-- Music-playback rule. -/
def rulePlay : IntentRule :=
  ⟨fun s => scanKeyThenAny "play ".toList s.toList, .tool_call, "PlayMusicTool"⟩

/-- Volume-up rule. -/
def ruleVolUp : IntentRule :=
  ⟨anySub ["increase volume", "volume up"], .tool_call, "VolumeUpTool"⟩

/-- Volume-down rule. -/
def ruleVolDown : IntentRule :=
  ⟨anySub ["decrease volume", "volume down"], .tool_call, "VolumeDownTool"⟩

/-- The ordered intent rule table (`IntentParser.patterns`, in insertion
order of the Python dict). -/
def intent_patterns : List IntentRule :=
  [ruleTime, ruleSystem, ruleCalc, ruleRemember, ruleRecall, ruleMemStats,
   ruleTelegram, ruleOpenSettings, ruleOpenAny, rulePlay, ruleVolUp, ruleVolDown]

/-- Fuelled scanner for the removal of matching alternatives; the fuel is at
least the list length on every call, so the zero-fuel branch is never hit. -/
def removeAllCIAux (alts : List String) : Nat → List Char → List Char
  | 0, cs => cs
  | _ + 1, [] => []
  | fuel + 1, c :: tl =>
    match alts.findSome? (fun a =>
        if a.toList ≠ [] && ciPrefixOf a.toList (c :: tl) then some a.toList.length
        else none) with
    | some n => removeAllCIAux alts fuel (tl.drop (n - 1))
    | none => c :: removeAllCIAux alts fuel tl

/-- Left-to-right, non-overlapping removal of the first matching alternative
at each position, the behaviour of `re.sub` on an alternation of literals
with `re.IGNORECASE`; alternatives are tried in their listed order. -/
def removeAllCI (alts : List String) (cs : List Char) : List Char :=
  removeAllCIAux alts cs.length cs

/-- Removal with anchored `(that|to)` followed by whitespace, the
`re.sub` with pattern anchored at the start used for Telegram messages. -/
def dropAltWs (alt : List Char) (cs : List Char) : Option (List Char) :=
  if ciPrefixOf alt cs then
    match cs.drop alt.length with
    | c :: rest =>
      if c.isWhitespace then some ((c :: rest).dropWhile Char.isWhitespace) else none
    | [] => none
  else none

/-- Strip a leading that-or-to word with its trailing whitespace. -/
def stripLeadThatTo (cs : List Char) : List Char :=
  match dropAltWs "that".toList cs with
  | some r => r
  | none =>
    match dropAltWs "to".toList cs with
    | some r => r
    | none => cs

/-- Time format parameter extraction for `GetTimeTool`. -/
def timeFormat (text : String) : String :=
  let l := pyLower text
  if pyContains "time" l && !(pyContains "date" l) then "time"
  else if pyContains "date" l && !(pyContains "time" l) then "date"
  else "full"

/-- Parameter extraction (`IntentParser._extract_params`), dispatched on the
matched tool name and applied to the original (uncased) text. -/
def extract_params (text : String) (tool : String) : List (String × String) :=
  if tool == "CalculatorTool" then
    [("expression",
      pyStrip (String.mk (removeAllCI
        ["calculate", "compute", "what is", "what\x27s", "how much is"]
        (pyLower text).toList)))]
  else if tool == "RememberTool" then
    [("information",
      pyStrip (String.mk (removeAllCI
        ["remember that", "remember this", "store this", "store that",
         "save this", "save that"] text.toList))),
     ("category", "fact")]
  else if tool == "RecallTool" then
    [("query",
      pyStrip (String.mk (removeAllCI
        ["do you remember", "recall", "what do you know about"] text.toList)))]
  else if tool == "GetTimeTool" then [("format", timeFormat text)]
  else if tool == "TelegramAlertTool" then
    let m1 := pyStrip (String.mk (removeAllCI
      ["notify me that", "notify me", "alert me that", "alert me",
       "remind me that", "remind me"] text.toList))
    [("message", pyStrip (String.mk (stripLeadThatTo m1.toList)))]
  else if tool == "OpenAppTool" then
    [("app", pyRstripChars ['.', '?', '!']
      (pyStrip (String.mk (removeAllCI ["open", "launch", "show"] text.toList))))]
  else if tool == "PlayMusicTool" then
    [("query", pyRstripChars ['.', '?', '!']
      (pyStrip (String.mk (removeAllCI ["play"] text.toList))))]
  else []

/-- Result of intent parsing (`IntentParser.parse` result dictionary). -/
structure IntentResult where
  intent : IntentType
  tool : Option String
  params : List (String × String)
  confidence : Rat
  original_text : String
deriving DecidableEq

/-- The pattern-matching loop of `IntentParser.parse`: the first rule whose
pattern matches the lowercased stripped text wins. -/
def parseLoop (text text_lower : String) : List IntentRule → IntentResult
  | [] => ⟨.conversation, none, [], mkRat 1 2, text⟩
  | r :: rs =>
    if r.pat text_lower then
      ⟨r.intent, some r.tool, extract_params text r.tool, mkRat 9 10, text⟩
    else parseLoop text text_lower rs

/-- Intent parsing (`IntentParser.parse`). -/
def parse (text : String) : IntentResult :=
  parseLoop text (pyStrip (pyLower text)) intent_patterns

/-- Tool-use decision (`IntentParser.should_use_tool`). -/
def should_use_tool (r : IntentResult) : Bool :=
  (r.intent == .tool_call || r.intent == .memory_store || r.intent == .memory_recall)
    && r.tool.isSome

/-! Voice-activity segmenter, from `src/core/audio_input.py`. -/

/-- Last `n` elements of a list (the tail a Python `deque(maxlen=n)` keeps,
and the slice `[-n:]`). -/
def takeLast {α : Type} (n : Nat) (l : List α) : List α :=
  l.drop (l.length - n)

/-- One captured audio chunk, identified by its index and carrying the
normalized energy that `_calculate_energy` computes for it (a rational in
place of the float). -/
structure Frame where
  fid : Nat
  energy : Rat
deriving DecidableEq

/-- Segmenter configuration: the VAD threshold (`config.vad_threshold`) and
the silence duration measured in frame periods
(`config.silence_duration_ms` divided by the fixed frame cadence). -/
structure SegConfig where
  vad_threshold : Rat
  silence_frames : Nat
deriving DecidableEq

/-- Voice-activity decision (`AudioInput._is_speech`): the frame energy
strictly exceeds the threshold. -/
def is_speech (cfg : SegConfig) (f : Frame) : Bool :=
  cfg.vad_threshold < f.energy

/-- Mutable segmenter state of `AudioInput`: the 100-chunk rolling buffer,
the speaking flag, the time of the last active frame, and the
accumulating speech buffer. -/
structure SegState where
  buffer : List Frame := []
  is_speaking : Bool := false
  last_speech_time : Nat := 0
  speech_buffer : List Frame := []
deriving DecidableEq

/-- One invocation of `AudioInput._audio_callback` for the frame `f`
arriving at time `now` (in frame periods): the frame joins the rolling
buffer; on speech onset the speech buffer is seeded with the last 10
buffered chunks, further frames are appended while speaking, and once the
silence gap exceeds the configured duration the accumulated buffer is
emitted (the second component) and cleared. -/
def seg_step (cfg : SegConfig) (now : Nat) (f : Frame) (s : SegState) :
    SegState × Option (List Frame) :=
  let buffer := takeLast 100 (s.buffer ++ [f])
  if is_speech cfg f then
    if !s.is_speaking then
      ({ buffer := buffer, is_speaking := true, last_speech_time := now,
         speech_buffer := takeLast 10 buffer }, none)
    else
      ({ buffer := buffer, is_speaking := true, last_speech_time := now,
         speech_buffer := s.speech_buffer ++ [f] }, none)
  else if s.is_speaking then
    let sb := s.speech_buffer ++ [f]
    if cfg.silence_frames < now - s.last_speech_time then
      ({ buffer := buffer, is_speaking := false,
         last_speech_time := s.last_speech_time, speech_buffer := [] },
       if sb.isEmpty then none else some sb)
    else
      ({ buffer := buffer, is_speaking := true,
         last_speech_time := s.last_speech_time, speech_buffer := sb }, none)
  else ({ s with buffer := buffer }, none)

/-- Run the callback over a frame sequence starting at time `now`.  The
returned list collects the emitted segments in order; each emission is a
synchronous invocation of `on_speech_detected` from within the callback. -/
def seg_run_from (cfg : SegConfig) : Nat → List Frame → SegState →
    SegState × List (List Frame)
  | _, [], s => (s, [])
  | now, f :: rest, s =>
    let step := seg_step cfg now f s
    let tail := seg_run_from cfg (now + 1) rest step.1
    (tail.1,
     (match step.2 with
      | some seg => [seg]
      | none => []) ++ tail.2)

/-- Run the callback over a frame sequence from the initial state. -/
def seg_run (cfg : SegConfig) (frames : List Frame) : SegState × List (List Frame) :=
  seg_run_from cfg 0 frames {}

/-- Frames of a fixed energy with consecutive indices, for concrete runs. -/
def constFrames (start n : Nat) (e : Rat) : List Frame :=
  (List.range n).map (fun i => ⟨start + i, e⟩)

/-! Wake-word matching, from `src/main.py` (`re.search`/`re.sub` with the
whole-word pattern built around the escaped wake word). -/

/-- Python regex word character (`\w` over ASCII input). -/
def isWordChar (c : Char) : Bool := c.isAlphanum || c == '_'

/-- Whole-word, case-insensitive match of `w` at the head of `cs`, where
`prev` is the character preceding the position (`none` at the start of
the string).  Faithful to the regex boundaries for wake words made of
word characters. -/
def wholeWordAt (w : List Char) (prev : Option Char) (cs : List Char) : Bool :=
  (match prev with
   | none => true
   | some p => !isWordChar p)
  && ciPrefixOf w cs
  && (match cs.drop w.length with
      | [] => true
      | c :: _ => !isWordChar c)

/-- Scan for a whole-word occurrence anywhere (the `re.search` call of the
wake-word gate). -/
def wwSearchAux (w : List Char) (prev : Option Char) : List Char → Bool
  | [] => false
  | c :: tl => wholeWordAt w prev (c :: tl) || wwSearchAux w (some c) tl

/-- Case-insensitive whole-word search for the wake word. -/
def wake_search (w : String) (text : String) : Bool :=
  wwSearchAux w.toList none text.toList

/-- Fuelled left-to-right removal of whole-word occurrences (the `re.sub`
call of the wake-word gate); after a match the scan resumes past the
matched characters. -/
def wwSubAux (w : List Char) : Nat → Option Char → List Char → List Char
  | 0, _, cs => cs
  | _ + 1, _, [] => []
  | fuel + 1, prev, c :: tl =>
    if w ≠ [] && wholeWordAt w prev (c :: tl) then
      wwSubAux w fuel (some (w.getLastD c)) (tl.drop (w.length - 1))
    else c :: wwSubAux w fuel (some c) tl

/-- Removal of every whole-word occurrence of the wake word followed by
Python `strip()`, the downstream text of `process_audio`. -/
def wake_sub (w : String) (text : String) : String :=
  pyStrip (String.mk (wwSubAux w.toList text.toList.length none text.toList))

/-! The turn handler, from `src/main.py` (`JARVIS.process_audio`). -/

/-- Orchestrator configuration relevant to a turn: the optional wake word,
whether a wake sound path is configured, and whether a UI update callback
is attached. -/
structure JConfig where
  wake_word : Option String
  has_wake_sound : Bool := false
  has_on_update : Bool := false

/-- Orchestrator state mutated by `process_audio`: the awaiting-command
flag, the running flag, and the conversation history as role/content
pairs. -/
structure OrchState where
  awaiting_command : Bool
  is_running : Bool := true
  conversation : List (String × String) := []
deriving DecidableEq

/-- Observable collaborator effects of one turn, in order of occurrence. -/
inductive PEvent where
  | update (tag : String) (payload : String)
  | played_sound
  | gate_submit (tool : String) (params : List (String × String)) (user_confirmed : Bool)
  | tool_executed (tool : String) (params : List (String × String))
  | spoke (text : String)
  | generated (response : String)
  | remembered (user_text response : String)
deriving DecidableEq

/-- Recogniser for gate submissions in a turn trace. -/
def is_gate_submit : PEvent → Bool
  | .gate_submit _ _ _ => true
  | _ => false

/-- Collaborator oracles for one turn: the transcription outcome for the
turn's audio, and the effectful collaborator calls, each of which may
raise. -/
structure PEnv where
  transcribe : Except String String
  speak : String → Except String Unit
  get_context : String → Except String String
  remember_conversation : String → String → Except String Unit
  generate : String → Option String → Except String String
  tool_run : String → List (String × String) → Except String ToolResult

/-- The tools registered in `JARVIS.initialize`, with their declared
parameters; each tool body is the corresponding oracle call. -/
def main_registry (env : PEnv) : List Tool :=
  [{ name := "GetTimeTool", parameters := [⟨"format", false⟩],
     run := env.tool_run "GetTimeTool" },
   { name := "GetSystemInfoTool", parameters := [],
     run := env.tool_run "GetSystemInfoTool" },
   { name := "CalculatorTool", parameters := [⟨"expression", true⟩],
     run := env.tool_run "CalculatorTool" },
   { name := "RememberTool", parameters := [⟨"information", true⟩, ⟨"category", false⟩],
     run := env.tool_run "RememberTool" },
   { name := "RecallTool", parameters := [⟨"query", true⟩, ⟨"category", false⟩],
     run := env.tool_run "RecallTool" },
   { name := "GetMemoryStatsTool", parameters := [],
     run := env.tool_run "GetMemoryStatsTool" }]

/-- Conversation append (`ConversationManager.add_message` with the default
`max_history` of 10: the history is trimmed to the last 20 entries). -/
def conv_add (conv : List (String × String)) (role content : String) :
    List (String × String) :=
  let m := conv ++ [(role, content)]
  if 20 < m.length then takeLast 20 m else m

/-- Outcome of the wake-word gate section of `process_audio`. -/
inductive WakeOutcome where
  | handled (awaiting : Bool) (played : Bool)
  | proceed (text : String) (awaiting : Bool) (played : Bool)
deriving DecidableEq

/-- The wake-word gate (`process_audio`, wake-word detection block): active
only when a non-empty wake word is configured and the session is not yet
awaiting commands.  On a whole-word match the session starts awaiting
commands, the wake sound plays if configured, and the wake word is
stripped; an empty remainder ends the turn, as does a non-match. -/
def wake_gate (cfg : JConfig) (awaiting : Bool) (user_text : String) : WakeOutcome :=
  match cfg.wake_word with
  | some w =>
    if w != "" && !awaiting then
      if wake_search w user_text then
        let stripped := wake_sub w user_text
        if stripped == "" then .handled true cfg.has_wake_sound
        else .proceed stripped true cfg.has_wake_sound
      else .handled awaiting false
    else .proceed user_text awaiting false
  | none => .proceed user_text awaiting false

/-- The fixed apology spoken by the exception handler of `process_audio`. -/
def apology_text : String := "I encountered an error processing your request."

/-- The body of `JARVIS.process_audio` guarded by its try block: the chain
from transcription through synthesis, with every early `return` and every
collaborator exception made explicit.  Returns the state and event trace
accumulated up to the exit point, and the exception if one was raised. -/
def process_body (cfg : JConfig) (env : PEnv) (st : OrchState) :
    OrchState × List PEvent × Except String Unit :=
  let ev0 := if cfg.has_on_update then [PEvent.update "status" "processing"] else []
  match env.transcribe with
  | .error e => (st, ev0, .error e)
  | .ok raw =>
    let user_text := pyStrip raw
    let ev1 := ev0 ++ (if cfg.has_on_update then [PEvent.update "transcription" user_text] else [])
    if user_text == "" then (st, ev1, .ok ())
    else if pyContains "shut up" (pyLower user_text) then
      match env.speak "Okay, shutting down." with
      | .error e => (st, ev1, .error e)
      | .ok _ =>
        ({ st with is_running := false }, ev1 ++ [.spoke "Okay, shutting down."], .ok ())
    else
      match wake_gate cfg st.awaiting_command user_text with
      | .handled awaiting played =>
        ({ st with awaiting_command := awaiting },
         ev1 ++ (if played then [PEvent.played_sound] else []), .ok ())
      | .proceed text awaiting played =>
        let st1 : OrchState := { st with awaiting_command := awaiting }
        let ev2 := ev1 ++ (if played then [PEvent.played_sound] else [])
          ++ (if cfg.has_on_update then
                [PEvent.update "state"
                  (if awaiting then "awaiting_command=true" else "awaiting_command=false")]
              else [])
        let st2 : OrchState := { st1 with conversation := conv_add st1.conversation "user" text }
        let intent_result := parse text
        match env.get_context text with
        | .error e => (st2, ev2, .error e)
        | .ok memory_context =>
          let toolStep : List PEvent × Option ToolResult :=
            if should_use_tool intent_result then
              match intent_result.tool with
              | some tn =>
                ([PEvent.tool_executed tn intent_result.params],
                 some (registry_execute (main_registry env) tn intent_result.params))
              | none => ([], none)
            else ([], none)
          let ev3 := ev2 ++ toolStep.1
          let context_parts :=
            (if memory_context != "" then [memory_context] else [])
            ++ (match toolStep.2 with
                | some r =>
                  if r.success then ["Tool result: " ++ r.result.getD "None"] else []
                | none => [])
          let context := if context_parts.isEmpty then none
            else some (String.intercalate "\n\n" context_parts)
          match env.generate text context with
          | .error e => (st2, ev3, .error e)
          | .ok response =>
            let ev4 := ev3 ++ [PEvent.generated response]
            let st3 : OrchState :=
              { st2 with conversation := conv_add st2.conversation "assistant" response }
            match env.remember_conversation text response with
            | .error e => (st3, ev4, .error e)
            | .ok _ =>
              let ev5 := ev4 ++ [.remembered text response]
              match env.speak response with
              | .error e => (st3, ev5, .error e)
              | .ok _ =>
                (st3,
                 ev5 ++ [.spoke response]
                   ++ (if cfg.has_on_update then
                        [PEvent.update "response" response, PEvent.update "status" "idle"]
                      else []),
                 .ok ())

/-- `JARVIS.process_audio`: the body above wrapped in the handler that
catches any exception, logs it, and speaks a short apology — itself a
collaborator call that may raise. -/
def process_turn (cfg : JConfig) (env : PEnv) (st : OrchState) :
    OrchState × List PEvent × Except String Unit :=
  match process_body cfg env st with
  | (st1, evs, .ok _) => (st1, evs, .ok ())
  | (st1, evs, .error _) =>
    match env.speak apology_text with
    | .ok _ => (st1, evs ++ [.spoke apology_text], .ok ())
    | .error e2 => (st1, evs, .error e2)

/-! Concrete fixtures for closed evaluations of the turn handler. -/

/-- A per-turn environment in which every collaborator succeeds and the
transcription yields `t`. -/
def envGood (t : String) : PEnv :=
  { transcribe := .ok t,
    speak := fun _ => .ok (),
    get_context := fun _ => .ok "",
    remember_conversation := fun _ _ => .ok (),
    generate := fun _ _ => .ok "OK.",
    tool_run := fun _ _ => .ok { success := true, result := some "R" } }

/-- An environment whose synthesis engine always raises. -/
def envBadTts : PEnv :=
  { transcribe := .ok "hello there",
    speak := fun _ => .error "tts broken",
    get_context := fun _ => .ok "",
    remember_conversation := fun _ _ => .ok (),
    generate := fun _ _ => .ok "OK.",
    tool_run := fun _ _ => .ok { success := true } }

/-- An environment whose generation engine always raises but whose
synthesis works. -/
def envBadGen : PEnv :=
  { transcribe := .ok "hello there",
    speak := fun _ => .ok (),
    get_context := fun _ => .ok "",
    remember_conversation := fun _ _ => .ok (),
    generate := fun _ _ => .error "llm down",
    tool_run := fun _ _ => .ok { success := true } }

/-- Configuration with the wake word of the specification example. -/
def cfgWake : JConfig := { wake_word := some "jarvis" }

/-- Configuration without a wake word. -/
def cfgPlain : JConfig := { wake_word := none }

/-- Session armed and awaiting the wake word. -/
def stArmed : OrchState := { awaiting_command := false }

/-- Session in an active command turn. -/
def stActive : OrchState := { awaiting_command := true }

/-- A demonstration tool for closed registry runs: one required parameter,
and a body that raises on a designated input. -/
def demoTool : Tool :=
  { name := "DemoTool", parameters := [⟨"x", true⟩],
    run := fun kwargs =>
      if pyGet kwargs "x" == "boom" then .error "boom"
      else .ok { success := true, result := some (pyGet kwargs "x") } }

/-- Segmenter configuration for concrete runs: threshold 1, two frame
periods of silence to close an utterance. -/
def cfgSeg : SegConfig := { vad_threshold := 1, silence_frames := 2 }

/-- A burst of two active frames then enough silence, twice in a row. -/
def framesTwoBursts : List Frame :=
  (constFrames 0 2 5 ++ constFrames 2 3 0) ++ (constFrames 5 2 5 ++ constFrames 7 3 0)

/-- Nine quiet pre-roll frames for the single-utterance run. -/
def preW : List Frame := constFrames 0 9 0

/-- Three active frames for the single-utterance run. -/
def actW : List Frame := constFrames 9 3 5

/-- Three closing silence frames for the single-utterance run. -/
def silW : List Frame := constFrames 12 3 0

/-! Theorems.  Each claim theorem carries its claim id. -/

/-- A list of length at most `n` is its own last-`n` slice. -/
lemma takeLast_of_le {α : Type} (n : Nat) (l : List α) (h : l.length ≤ n) :
    takeLast n l = l := by
  unfold takeLast
  have : l.length - n = 0 := by omega
  rw [this, List.drop_zero]

/-- The last-`n` slice has length at most `n`. -/
lemma takeLast_length_le {α : Type} (n : Nat) (l : List α) :
    (takeLast n l).length ≤ n := by
  unfold takeLast
  rw [List.length_drop]
  omega

/-- Appending one element shifts the last-`n` slice by one. -/
lemma takeLast_append_singleton {α : Type} (n : Nat) (hn : 1 ≤ n) (l : List α) (a : α) :
    takeLast n (l ++ [a]) = takeLast (n - 1) l ++ [a] := by
  unfold takeLast
  have h1 : (l ++ [a]).length - n = l.length - (n - 1) := by
    rw [List.length_append]
    simp only [List.length_cons, List.length_nil]
    omega
  rw [h1, List.drop_append_eq_append_drop]
  have h2 : l.length - (n - 1) - l.length = 0 := by omega
  rw [h2, List.drop_zero]

/-- Nested last-slices collapse to the smaller one. -/
lemma takeLast_takeLast {α : Type} (m n : Nat) (h : m ≤ n) (l : List α) :
    takeLast m (takeLast n l) = takeLast m l := by
  unfold takeLast
  rw [List.drop_drop]
  congr 1
  rw [List.length_drop]
  omega

/-- Trimming the left part to its last-`n` slice does not change the
last-`n` slice of an append. -/
lemma takeLast_append_left {α : Type} (n : Nat) (l l2 : List α) :
    takeLast n (takeLast n l ++ l2) = takeLast n (l ++ l2) := by
  unfold takeLast
  rcases le_or_lt l.length n with h | h
  · have h0 : l.length - n = 0 := by omega
    rw [h0, List.drop_zero]
  · have hlen : (l.drop (l.length - n)).length = n := by
      rw [List.length_drop]; omega
    rw [List.length_append, List.length_append, hlen]
    have e3 : n + l2.length - n = l2.length := by omega
    have e2 : l.length + l2.length - n = (l.length - n) + l2.length := by omega
    rw [e3, e2, List.drop_append_eq_append_drop, List.drop_append_eq_append_drop,
        List.drop_drop, hlen]
    have e4 : (l.length - n) + l2.length - l.length = l2.length - n := by omega
    rw [e4]

/-- Characterization of the intent-matching loop by the first matching rule. -/
lemma parseLoop_eq_find (text text_lower : String) (rs : List IntentRule) :
    parseLoop text text_lower rs =
      match rs.find? (fun r => r.pat text_lower) with
      | some r => ⟨r.intent, some r.tool, extract_params text r.tool, mkRat 9 10, text⟩
      | none => ⟨.conversation, none, [], mkRat 1 2, text⟩ := by
  induction rs with
  | nil => rfl
  | cons r rs ih =>
    cases h : r.pat text_lower with
    | true => simp [parseLoop, h, List.find?_cons_of_pos _ h]
    | false =>
      rw [parseLoop, if_neg (by simp [h]), List.find?_cons_of_neg _ (by simp [h]), ih]

/-- C7: intent parsing evaluates the ordered rule table on the lowercased
stripped text and returns the first matching rule's intent kind, tool and
extracted parameters with confidence 0.9; with no match it returns the
conversation intent with no tool and confidence 0.5. -/
theorem parse_first_match_wins (text : String) :
    (∀ r : IntentRule,
        intent_patterns.find? (fun r => r.pat (pyStrip (pyLower text))) = some r →
        parse text = ⟨r.intent, some r.tool, extract_params text r.tool, mkRat 9 10, text⟩)
  ∧ (intent_patterns.find? (fun r => r.pat (pyStrip (pyLower text))) = none →
        parse text = ⟨.conversation, none, [], mkRat 1 2, text⟩) := by
  constructor
  · intro r h
    rw [parse, parseLoop_eq_find, h]
  · intro h
    rw [parse, parseLoop_eq_find, h]

/-- Witness for C7 at the time-query input. -/
theorem parse_first_match_wins_witness :
    parse "what time is it"
      = ⟨ruleTime.intent, some ruleTime.tool,
         extract_params "what time is it" ruleTime.tool, mkRat 9 10, "what time is it"⟩ :=
  (parse_first_match_wins "what time is it").1 ruleTime rfl

/-- C10: registry execution is total, returning a failure `ToolResult` for
an unregistered tool, a failed parameter validation, or a tool body that
raises, and the tool's own result otherwise. -/
theorem registry_execute_total (reg : List Tool) (tool_name : String)
    (kwargs : List (String × String)) :
    (get_tool reg tool_name = none →
      registry_execute reg tool_name kwargs
        = { success := false, error := some ("Tool \x27" ++ tool_name ++ "\x27 not found") })
  ∧ (∀ t msg, get_tool reg tool_name = some t →
      validate_parameters t kwargs = (false, msg) →
      registry_execute reg tool_name kwargs = { success := false, error := msg })
  ∧ (∀ t m e, get_tool reg tool_name = some t →
      validate_parameters t kwargs = (true, m) →
      t.run kwargs = .error e →
      registry_execute reg tool_name kwargs
        = { success := false, error := some ("Tool execution error: " ++ e) })
  ∧ (∀ t m r, get_tool reg tool_name = some t →
      validate_parameters t kwargs = (true, m) →
      t.run kwargs = .ok r →
      registry_execute reg tool_name kwargs = r) := by
  refine ⟨fun h => by simp [registry_execute, h],
          fun t msg h1 h2 => by simp [registry_execute, h1, h2],
          fun t m e h1 h2 h3 => by simp [registry_execute, h1, h2, h3],
          fun t m r h1 h2 h3 => by simp [registry_execute, h1, h2, h3]⟩

/-- Witness for C10: all four outcomes on a concrete one-tool registry. -/
theorem registry_execute_total_witness :
    registry_execute [demoTool] "Missing" []
      = { success := false, error := some ("Tool \x27" ++ "Missing" ++ "\x27 not found") }
  ∧ registry_execute [demoTool] "DemoTool" []
      = { success := false, error := some "Missing required parameter: x" }
  ∧ registry_execute [demoTool] "DemoTool" [("x", "boom")]
      = { success := false, error := some ("Tool execution error: " ++ "boom") }
  ∧ registry_execute [demoTool] "DemoTool" [("x", "hi")]
      = { success := true, result := some "hi" } :=
  ⟨(registry_execute_total [demoTool] "Missing" []).1 rfl,
   (registry_execute_total [demoTool] "DemoTool" []).2.1 demoTool
     (some "Missing required parameter: x") rfl rfl,
   (registry_execute_total [demoTool] "DemoTool" [("x", "boom")]).2.2.1 demoTool
     none "boom" rfl rfl rfl,
   (registry_execute_total [demoTool] "DemoTool" [("x", "hi")]).2.2.2 demoTool
     none { success := true, result := some "hi" } rfl rfl rfl⟩

/-- C8 counterexample: when the model is not yet loaded and loading fails,
`transcribe` re-raises the load error instead of returning an empty-text
result — the operation is not exception-free as claimed. -/
theorem stt_transcribe_load_failure_raises :
    stt_transcribe false (.error "Failed to load Whisper model")
      (.ok { text := "hi" }) (some "en") none
      = .error "Failed to load Whisper model" := rfl

/-- C8 amended: once the model is loaded (or lazy loading succeeds),
transcription never raises: it returns a result with text and language
fields, and an inner transcription failure yields empty text. -/
theorem stt_transcribe_total_after_load (model_loaded : Bool)
    (load_result : Except String Unit) (run_result : Except String WhisperRaw)
    (cfg_language language : Option String)
    (h : model_loaded = true ∨ load_result = .ok ()) :
    ∃ r, stt_transcribe model_loaded load_result run_result cfg_language language = .ok r
      ∧ (∀ e, run_result = .error e → r.text = "") := by
  have hl : (if model_loaded then Except.ok () else load_result) = Except.ok () := by
    rcases h with h | h
    · simp [h]
    · cases model_loaded <;> simp [h]
  unfold stt_transcribe
  rw [hl]
  cases run_result with
  | ok r => exact ⟨_, rfl, fun e he => Except.noConfusion he⟩
  | error e0 => exact ⟨_, rfl, fun e _ => rfl⟩

/-- Witness for C8 amended: lazy load succeeds, the model call fails, and
the result is an empty-text transcription. -/
theorem stt_transcribe_total_after_load_witness :
    ∃ r, stt_transcribe false (.ok ()) (.error "bad audio") (some "en") none = .ok r
      ∧ r.text = "" := by
  obtain ⟨r, h1, h2⟩ := stt_transcribe_total_after_load false (.ok ())
    (.error "bad audio") (some "en") none (Or.inr rfl)
  exact ⟨r, h1, h2 "bad audio" rfl⟩

/-- C9: publishing a pipeline event with no attached consumer never raises:
with no event loop the event is dropped outright, with a loop but no
connections nothing is sent, and failing sends are absorbed
per-connection without propagating. -/
theorem publish_without_consumer_safe :
    (∀ (conns : List Nat) (send : Nat → String → Except String Unit) (event : String),
        jarvis_update_callback false conns send event = .dropped)
  ∧ (∀ (send : Nat → String → Except String Unit) (event : String),
        jarvis_update_callback true [] send event = .delivered [])
  ∧ (∀ (conns : List Nat) (event : String),
        jarvis_update_callback true conns (fun _ _ => .error "connection closed") event
          = .delivered (conns.map (fun c => (c, false)))) := by
  refine ⟨fun _ _ _ => rfl, fun _ _ => rfl, fun conns event => ?_⟩
  simp [jarvis_update_callback, broadcast]

/-- C1: on the turn transcribed as a system-status query, the orchestrator
invokes the registry and the tool executes, yet the trace contains no
submission to the security gate, even though the gate itself classifies
`GetSystemInfoTool` as high risk and would deny it without user
confirmation under the default policy. -/
theorem tool_executes_without_security_gate :
    PEvent.tool_executed "GetSystemInfoTool" []
      ∈ (process_turn cfgPlain (envGood "system status") stActive).2.1
  ∧ ((process_turn cfgPlain (envGood "system status") stActive).2.1.all
      (fun e => !(is_gate_submit e))) = true
  ∧ validate_action default_policy "GetSystemInfoTool" [] false
      = (false, some "Action \x27GetSystemInfoTool\x27 requires explicit user confirmation") :=
  ⟨by decide, by decide, by decide⟩

/-- C3 counterexample: for wake word jarvis and transcript
hey jarvis what time is it, the downstream text keeps the surrounding
words — only the wake word itself is removed and interior whitespace is
preserved — so it is not the claimed exact string. -/
theorem wake_strip_keeps_surrounding_text :
    (process_turn cfgWake (envGood "hey jarvis what time is it") stArmed).1.conversation
      = [("user", "hey  what time is it"), ("assistant", "OK.")]
  ∧ wake_sub "jarvis" "hey jarvis what time is it" = "hey  what time is it"
  ∧ "hey  what time is it" ≠ "what time is it" :=
  ⟨by decide, by decide, by decide⟩

/-- C3 amended: with a wake word configured and the session armed, a
whole-word case-insensitive match moves the session to awaiting-command
and passes downstream the transcript with the wake word occurrences
removed and ends trimmed (interior text and spacing preserved); an empty
remainder ends the turn; a non-match leaves the session armed with no
further stage run.  The concrete conjuncts run the full turn handler on
the specification's example inputs. -/
theorem wake_gate_amended :
    (∀ w t, w ≠ "" → wake_search w t = true → wake_sub w t ≠ "" →
        wake_gate { wake_word := some w } false t = .proceed (wake_sub w t) true false)
  ∧ (∀ w t, w ≠ "" → wake_search w t = false →
        wake_gate { wake_word := some w } false t = .handled false false)
  ∧ (∀ w t, w ≠ "" → wake_search w t = true → wake_sub w t = "" →
        wake_gate { wake_word := some w } false t = .handled true false)
  ∧ (process_turn cfgWake (envGood "hey jarvis what time is it") stArmed).1.awaiting_command
      = true
  ∧ (process_turn cfgWake (envGood "just talking") stArmed).1.awaiting_command = false
  ∧ (process_turn cfgWake (envGood "just talking") stArmed).2.1 = []
  ∧ (process_turn cfgWake (envGood "just talking") stArmed).1.conversation = []
  ∧ (process_turn cfgWake (envGood "jarvis") stArmed).1.conversation = []
  ∧ (process_turn cfgWake (envGood "jarvis") stArmed).1.awaiting_command = true := by
  refine ⟨?_, ?_, ?_, by decide, by decide, by decide, by decide, by decide, by decide⟩
  · intro w t hw hs hne
    have hw2 : (w != "") = true := by simpa [bne_iff_ne] using hw
    have hne2 : (wake_sub w t == "") = false := by simpa [beq_eq_false_iff_ne] using hne
    simp [wake_gate, hw2, hs, hne2]
  · intro w t hw hs
    have hw2 : (w != "") = true := by simpa [bne_iff_ne] using hw
    simp [wake_gate, hw2, hs]
  · intro w t hw hs hemp
    have hw2 : (w != "") = true := by simpa [bne_iff_ne] using hw
    have hemp2 : (wake_sub w t == "") = true := by simpa [beq_iff_eq] using hemp
    simp [wake_gate, hw2, hs, hemp2]

/-- Witness for C3 amended, at the specification's example input. -/
theorem wake_gate_amended_witness :
    wake_gate { wake_word := some "jarvis" } false "hey jarvis what time is it"
      = .proceed (wake_sub "jarvis" "hey jarvis what time is it") true false :=
  wake_gate_amended.1 "jarvis" "hey jarvis what time is it"
    (by decide) (by decide) (by decide)

set_option maxHeartbeats 1000000 in
/-- On every path on which the body of the turn handler raises, the
running flag is left untouched (the only write to it is on the exit
phrase path, which returns normally). -/
lemma process_body_error_keeps_running (cfg : JConfig) (env : PEnv) (st : OrchState) :
    (process_body cfg env st).2.2.isOk = false →
    (process_body cfg env st).1.is_running = st.is_running := by
  simp only [process_body]
  repeat' split
  all_goals intro h
  all_goals first
    | rfl
    | exact Bool.noConfusion h

/-- C6 amended: provided speaking the apology succeeds, the turn handler
never propagates an exception: any failure inside the body is caught, the
fixed apology (and nothing derived from the exception) is appended to the
spoken trace, and the session's running flag is unchanged. -/
theorem turn_handler_recovers_when_apology_speaks (cfg : JConfig) (env : PEnv)
    (st : OrchState) (h : env.speak apology_text = .ok ()) :
    (process_turn cfg env st).2.2 = .ok ()
  ∧ ((process_body cfg env st).2.2.isOk = false →
      (process_turn cfg env st).2.1 = (process_body cfg env st).2.1 ++ [.spoke apology_text]
      ∧ (process_turn cfg env st).1.is_running = st.is_running) := by
  have hrun := process_body_error_keeps_running cfg env st
  rcases hb : process_body cfg env st with ⟨st1, evs, res⟩
  rw [hb] at hrun
  unfold process_turn
  rw [hb]
  cases res with
  | ok u =>
    cases u
    exact ⟨rfl, fun hfalse => Bool.noConfusion hfalse⟩
  | error e =>
    rw [h]
    exact ⟨rfl, fun _ => ⟨rfl, hrun rfl⟩⟩

/-- Witness for C6 amended: generation fails, the apology is spoken, the
handler returns normally and the session keeps running. -/
theorem turn_handler_recovers_witness :
    (process_turn cfgPlain envBadGen stActive).2.2 = .ok ()
  ∧ (process_turn cfgPlain envBadGen stActive).2.1
      = (process_body cfgPlain envBadGen stActive).2.1 ++ [.spoke apology_text]
  ∧ (process_turn cfgPlain envBadGen stActive).1.is_running = true := by
  have h := turn_handler_recovers_when_apology_speaks cfgPlain envBadGen stActive rfl
  have hfail : (process_body cfgPlain envBadGen stActive).2.2.isOk = false := rfl
  exact ⟨h.1, (h.2 hfail).1, (h.2 hfail).2⟩

/-- Running the callback over an appended frame sequence composes the runs
of its parts, offsetting the clock by the length of the first. -/
lemma seg_run_from_append (cfg : SegConfig) (t : Nat) (l1 l2 : List Frame) (s : SegState) :
    seg_run_from cfg t (l1 ++ l2) s
      = ((seg_run_from cfg (t + l1.length) l2 (seg_run_from cfg t l1 s).1).1,
         (seg_run_from cfg t l1 s).2
           ++ (seg_run_from cfg (t + l1.length) l2 (seg_run_from cfg t l1 s).1).2) := by
  induction l1 generalizing t s with
  | nil => simp [seg_run_from]
  | cons f rest ih =>
    simp only [List.cons_append, seg_run_from, List.length_cons, List.append_eq]
    rw [ih]
    have e1 : t + 1 + rest.length = t + (rest.length + 1) := by omega
    rw [e1, List.append_assoc]

/-- While not speaking, inactive frames only roll the pre-roll buffer. -/
lemma seg_run_idle (cfg : SegConfig) (t : Nat) (pre : List Frame) (s : SegState)
    (hs : s.is_speaking = false) (hb : s.buffer.length ≤ 100)
    (hq : ∀ f ∈ pre, is_speech cfg f = false) :
    seg_run_from cfg t pre s
      = ({ s with buffer := takeLast 100 (s.buffer ++ pre) }, []) := by
  induction pre generalizing t s with
  | nil =>
    simp only [seg_run_from, List.append_nil, takeLast_of_le _ _ hb]
  | cons f rest ih =>
    have hf : is_speech cfg f = false := hq f (by simp)
    simp only [seg_run_from, seg_step, hf, hs, Bool.false_eq_true, if_false]
    rw [ih (t + 1) _ rfl (takeLast_length_le _ _) (fun g hg => hq g (by simp [hg]))]
    simp [takeLast_append_left, List.append_assoc]

/-- The onset step: the first active frame while idle seeds the speech
buffer with the last ten buffered chunks (the current frame included). -/
lemma seg_step_onset (cfg : SegConfig) (now : Nat) (f : Frame) (s : SegState)
    (hs : s.is_speaking = false) (hf : is_speech cfg f = true) :
    seg_step cfg now f s
      = ({ buffer := takeLast 100 (s.buffer ++ [f]), is_speaking := true,
           last_speech_time := now,
           speech_buffer := takeLast 9 s.buffer ++ [f] }, none) := by
  simp only [seg_step, hf, hs, if_true, Bool.not_false, if_false]
  rw [takeLast_takeLast 10 100 (by omega) _, takeLast_append_singleton 10 (by omega)]

/-- While speaking, a nonempty run of active frames appends to the speech
buffer and advances the last-speech clock to its final frame. -/
lemma seg_run_speaking_active (cfg : SegConfig) (t : Nat) (act : List Frame) (s : SegState)
    (hs : s.is_speaking = true) (hb : s.buffer.length ≤ 100)
    (ha : ∀ f ∈ act, is_speech cfg f = true) (hne : act ≠ []) :
    seg_run_from cfg t act s
      = ({ buffer := takeLast 100 (s.buffer ++ act), is_speaking := true,
           last_speech_time := t + act.length - 1,
           speech_buffer := s.speech_buffer ++ act }, []) := by
  induction act generalizing t s with
  | nil => exact absurd rfl hne
  | cons f rest ih =>
    have hf : is_speech cfg f = true := ha f (by simp)
    simp only [seg_run_from, seg_step, hf, hs, if_true, Bool.not_true, Bool.false_eq_true,
      if_false]
    rcases Decidable.em (rest = []) with hr | hr
    · subst hr
      simp [seg_run_from]
    · rw [ih (t + 1) _ rfl (takeLast_length_le _ _) (fun g hg => ha g (by simp [hg])) hr]
      have e1 : t + 1 + rest.length - 1 = t + (rest.length + 1) - 1 := by omega
      simp [takeLast_append_left, List.append_assoc, e1]

/-- A nonempty active run from the idle state: speaking starts, the speech
buffer is the nine-frame pre-roll plus the whole run, and the clock marks
the run's final frame. -/
lemma seg_run_onset_active (cfg : SegConfig) (t : Nat) (act : List Frame) (s : SegState)
    (hs : s.is_speaking = false) (_hb : s.buffer.length ≤ 100)
    (ha : ∀ f ∈ act, is_speech cfg f = true) (hne : act ≠ []) :
    seg_run_from cfg t act s
      = ({ buffer := takeLast 100 (s.buffer ++ act), is_speaking := true,
           last_speech_time := t + act.length - 1,
           speech_buffer := takeLast 9 s.buffer ++ act }, []) := by
  cases act with
  | nil => exact absurd rfl hne
  | cons a act2 =>
    have hfa : is_speech cfg a = true := ha a (by simp)
    simp only [seg_run_from]
    rw [seg_step_onset cfg t a s hs hfa]
    rcases Decidable.em (act2 = []) with hr | hr
    · subst hr
      simp [seg_run_from]
    · rw [seg_run_speaking_active cfg (t + 1) act2 _ rfl (takeLast_length_le _ _)
        (fun g hg => ha g (by simp [hg])) hr]
      have e1 : t + 1 + act2.length - 1 = t + (act2.length + 1) - 1 := by omega
      simp [takeLast_append_left, List.append_assoc, e1]

/-- While speaking, inactive frames keep accumulating until the silence gap
exceeds the configured duration, at which point the buffer (speech plus
the trailing silence frames up to and including the trigger) is emitted
exactly once and the segmenter returns to idle. -/
lemma seg_run_silence_emits (cfg : SegConfig) (sil : List Frame) :
    ∀ (s : SegState) (now : Nat),
    s.is_speaking = true →
    s.buffer.length ≤ 100 →
    (∀ f ∈ sil, is_speech cfg f = false) →
    s.last_speech_time < now →
    now - s.last_speech_time ≤ cfg.silence_frames + 1 →
    cfg.silence_frames + 1 - (now - s.last_speech_time) + 1 ≤ sil.length →
    seg_run_from cfg now sil s
      = ({ buffer := takeLast 100 (s.buffer ++ sil), is_speaking := false,
           last_speech_time := s.last_speech_time, speech_buffer := [] },
         [s.speech_buffer
           ++ sil.take (cfg.silence_frames + 1 - (now - s.last_speech_time) + 1)]) := by
  induction sil with
  | nil =>
    intro s now _ _ _ h1 h2 h3
    simp only [List.length_nil] at h3
    omega
  | cons f rest ih =>
    intro s now hspk hb hz h1 h2 h3
    have hf : is_speech cfg f = false := hz f (by simp)
    simp only [seg_run_from, seg_step, hf, hspk, Bool.false_eq_true, if_false, if_true]
    rcases Decidable.em (now - s.last_speech_time = cfg.silence_frames + 1) with he | he
    · -- the gap is exceeded at this frame: emit and return to idle
      rw [if_pos (by omega)]
      have hemp : (s.speech_buffer ++ [f]).isEmpty = false := by
        cases s.speech_buffer <;> rfl
      rw [hemp]
      have htake : cfg.silence_frames + 1 - (now - s.last_speech_time) + 1 = 1 := by omega
      rw [htake]
      dsimp only
      rw [seg_run_idle cfg (now + 1) rest _ rfl (takeLast_length_le _ _)
        (fun g hg => hz g (by simp [hg]))]
      simp [takeLast_append_left, List.append_assoc]
    · -- still inside the allowed gap: accumulate and recurse
      rw [if_neg (by omega)]
      dsimp only
      rw [ih _ (now + 1) rfl (takeLast_length_le _ _)
        (fun g hg => hz g (by simp [hg]))
        (by show s.last_speech_time < now + 1; omega)
        (by show now + 1 - s.last_speech_time ≤ cfg.silence_frames + 1; omega)
        (by show cfg.silence_frames + 1 - (now + 1 - s.last_speech_time) + 1 ≤ rest.length
            simp only [List.length_cons] at h3
            omega)]
      dsimp only
      have e1 : cfg.silence_frames + 1 - (now + 1 - s.last_speech_time) + 1 + 1
          = cfg.silence_frames + 1 - (now - s.last_speech_time) + 1 := by omega
      simp only [takeLast_append_left, List.append_assoc, List.singleton_append]
      rw [← List.take_succ_cons, e1, List.nil_append]

/-- A full utterance from an idle segmenter: quiet pre-roll, a nonempty
active run, then enough silence.  Exactly one segment is emitted,
consisting of the nine-frame pre-roll, the whole active run, and the
trailing silence frames up to the trigger; the segmenter ends idle with
an empty speech buffer. -/
lemma seg_run_burst (cfg : SegConfig) (t : Nat) (pre act sil : List Frame)
    (sbuf : List Frame) (slast : Nat) (ssb : List Frame)
    (hb : sbuf.length ≤ 100)
    (hq : ∀ f ∈ pre, is_speech cfg f = false)
    (ha : ∀ f ∈ act, is_speech cfg f = true)
    (hz : ∀ f ∈ sil, is_speech cfg f = false)
    (hact : act ≠ []) (hsil : cfg.silence_frames + 1 ≤ sil.length) :
    seg_run_from cfg t (pre ++ (act ++ sil)) ⟨sbuf, false, slast, ssb⟩
      = (⟨takeLast 100 (sbuf ++ (pre ++ (act ++ sil))), false,
          t + pre.length + act.length - 1, []⟩,
         [takeLast 9 (sbuf ++ pre) ++ act ++ sil.take (cfg.silence_frames + 1)]) := by
  have hlen : 1 ≤ act.length := List.length_pos.mpr hact
  rw [seg_run_from_append cfg t pre (act ++ sil) _,
      seg_run_idle cfg t pre _ rfl hb hq]
  dsimp only
  rw [seg_run_from_append cfg (t + pre.length) act sil _,
      seg_run_onset_active cfg (t + pre.length) act _ rfl (takeLast_length_le _ _) ha hact]
  dsimp only
  rw [seg_run_silence_emits cfg sil _ (t + pre.length + act.length) rfl
      (takeLast_length_le _ _) hz
      (by show t + pre.length + act.length - 1 < t + pre.length + act.length; omega)
      (by show t + pre.length + act.length - (t + pre.length + act.length - 1)
            ≤ cfg.silence_frames + 1
          omega)
      (by show cfg.silence_frames + 1
            - (t + pre.length + act.length - (t + pre.length + act.length - 1)) + 1
            ≤ sil.length
          omega)]
  dsimp only
  have e1 : cfg.silence_frames + 1
      - (t + pre.length + act.length - (t + pre.length + act.length - 1)) + 1
      = cfg.silence_frames + 1 := by omega
  rw [e1, takeLast_append_left, takeLast_takeLast 9 100 (by omega)]
  simp only [takeLast_append_left, List.append_assoc, List.nil_append]

/-- C4: for a frame sequence of quiet pre-roll, a contiguous nonempty
active run, and silence longer than the configured duration, exactly one
speech segment is emitted, equal to the nine pre-roll frames before
onset, every frame of the active run, and the trailing silence frames up
to the trigger — in particular it contains the pre-roll frames and every
frame from the first through the last active frame. -/
theorem segmenter_single_utterance (cfg : SegConfig) (pre act sil : List Frame)
    (hq : ∀ f ∈ pre, is_speech cfg f = false)
    (ha : ∀ f ∈ act, is_speech cfg f = true)
    (hz : ∀ f ∈ sil, is_speech cfg f = false)
    (hact : act ≠ []) (hsil : cfg.silence_frames + 1 ≤ sil.length) :
    (seg_run cfg (pre ++ (act ++ sil))).2
      = [takeLast 9 pre ++ act ++ sil.take (cfg.silence_frames + 1)]
  ∧ ∀ f ∈ takeLast 9 pre ++ act,
      f ∈ takeLast 9 pre ++ act ++ sil.take (cfg.silence_frames + 1) := by
  have h := seg_run_burst cfg 0 pre act sil [] 0 [] (by simp) hq ha hz hact hsil
  constructor
  · rw [seg_run, h]
    rfl
  · intro f hf
    simp only [List.append_assoc, List.mem_append] at hf ⊢
    tauto

/-- Witness for C4 at a concrete nine-plus-three-plus-three frame run. -/
theorem segmenter_single_utterance_witness :
    (seg_run cfgSeg (preW ++ (actW ++ silW))).2
      = [takeLast 9 preW ++ actW ++ silW.take (cfgSeg.silence_frames + 1)] :=
  (segmenter_single_utterance cfgSeg preW actW silW (by decide) (by decide) (by decide)
    (by decide) (by decide)).1

/-- C5 amended: the segmenter has no maximum utterance duration: for as
long as the active run continues, no segment is emitted and the speech
buffer holds every frame of the run, growing without bound. -/
theorem speech_buffer_unbounded (cfg : SegConfig) (frames : List Frame)
    (ha : ∀ f ∈ frames, is_speech cfg f = true) (hne : frames ≠ []) :
    (seg_run cfg frames).2 = []
  ∧ (seg_run cfg frames).1.speech_buffer = frames := by
  have h := seg_run_onset_active cfg 0 frames ⟨[], false, 0, []⟩ rfl (by simp) ha hne
  rw [seg_run, h]
  exact ⟨rfl, rfl⟩

/-- Witness for C5 amended on a short active run. -/
theorem speech_buffer_unbounded_witness :
    (seg_run cfgSeg (constFrames 0 3 5)).2 = []
  ∧ (seg_run cfgSeg (constFrames 0 3 5)).1.speech_buffer = constFrames 0 3 5 :=
  speech_buffer_unbounded cfgSeg (constFrames 0 3 5) (by decide) (by decide)

/-- C5 counterexample: 150 frames of continuous speech — longer than any
buffer in the system, in particular the 100-frame pre-roll deque — are
accumulated with no early emission: the per-utterance buffer reaches 150
frames and no segment is produced, so no maximum-utterance cutoff
exists. -/
theorem no_max_utterance_cutoff :
    (seg_run cfgSeg (constFrames 0 150 5)).2 = []
  ∧ (seg_run cfgSeg (constFrames 0 150 5)).1.speech_buffer.length = 150 := by
  have h := seg_run_onset_active cfgSeg 0 (constFrames 0 150 5) ⟨[], false, 0, []⟩ rfl
    (by simp)
    (fun f hf => by
      obtain ⟨i, -, rfl⟩ := List.mem_map.mp hf
      rfl)
    (by
      apply List.length_pos.mp
      simp [constFrames])
  rw [seg_run, h]
  refine ⟨rfl, ?_⟩
  simp [constFrames, takeLast]

/-- C2 amended: every completed segment is handed to the turn handler by a
direct synchronous callback invocation — two bursts separated by enough
silence yield two delivered segments, in order, with nothing dropped. -/
theorem both_bursts_processed (cfg : SegConfig) (act1 sil1 act2 sil2 : List Frame)
    (ha1 : ∀ f ∈ act1, is_speech cfg f = true)
    (hz1 : ∀ f ∈ sil1, is_speech cfg f = false)
    (ha2 : ∀ f ∈ act2, is_speech cfg f = true)
    (hz2 : ∀ f ∈ sil2, is_speech cfg f = false)
    (hne1 : act1 ≠ []) (hne2 : act2 ≠ [])
    (hs1 : cfg.silence_frames + 1 ≤ sil1.length)
    (hs2 : cfg.silence_frames + 1 ≤ sil2.length) :
    (seg_run cfg ((act1 ++ sil1) ++ (act2 ++ sil2))).2
      = [act1 ++ sil1.take (cfg.silence_frames + 1),
         takeLast 9 (act1 ++ sil1) ++ act2 ++ sil2.take (cfg.silence_frames + 1)] := by
  have h1 := seg_run_burst cfg 0 [] act1 sil1 [] 0 [] (by simp) (by simp) ha1 hz1 hne1 hs1
  simp only [List.nil_append, List.append_nil, List.length_nil, Nat.add_zero,
    Nat.zero_add] at h1
  rw [seg_run, seg_run_from_append, h1]
  simp only [List.nil_append, List.append_nil, List.length_nil, List.length_append,
    Nat.add_zero, Nat.zero_add]
  have h2 := seg_run_burst cfg (act1.length + sil1.length) [] act2 sil2
    (takeLast 100 (act1 ++ sil1)) (act1.length - 1) [] (takeLast_length_le _ _)
    (by simp) ha2 hz2 hne2 hs2
  simp only [List.nil_append, List.append_nil, List.length_nil, Nat.add_zero,
    Nat.zero_add] at h2
  rw [h2]
  dsimp only
  rw [takeLast_takeLast 9 100 (by omega)]
  have h9 : takeLast 9 ([] : List Frame) = [] := rfl
  rw [h9]
  simp only [List.nil_append, List.append_assoc]
  rfl

/-- Witness for C2 amended at the concrete two-burst run. -/
theorem both_bursts_processed_witness :
    (seg_run cfgSeg ((constFrames 0 2 5 ++ constFrames 2 3 0)
        ++ (constFrames 5 2 5 ++ constFrames 7 3 0))).2
      = [constFrames 0 2 5 ++ (constFrames 2 3 0).take (cfgSeg.silence_frames + 1),
         takeLast 9 (constFrames 0 2 5 ++ constFrames 2 3 0) ++ constFrames 5 2 5
           ++ (constFrames 7 3 0).take (cfgSeg.silence_frames + 1)] :=
  both_bursts_processed cfgSeg (constFrames 0 2 5) (constFrames 2 3 0)
    (constFrames 5 2 5) (constFrames 7 3 0)
    (by decide) (by decide) (by decide) (by decide)
    (by decide) (by decide) (by decide) (by decide)

/-- C2 counterexample: two speech bursts in one frame sequence produce two
emitted segments, both delivered synchronously to the turn handler in
order — the second burst is processed, not dropped, and no single-slot
hand-off channel exists in the callback. -/
theorem second_burst_not_dropped :
    (seg_run cfgSeg framesTwoBursts).2.length = 2
  ∧ (seg_run cfgSeg framesTwoBursts).2
      = [constFrames 0 2 5 ++ constFrames 2 3 0,
         takeLast 9 (constFrames 0 2 5 ++ constFrames 2 3 0) ++ constFrames 5 2 5
           ++ constFrames 7 3 0] := by
  constructor
  · decide
  · decide

/-- C6 counterexample: when synthesis itself raises, the apology call in
the exception handler raises too and the exception escapes the turn
handler, contradicting the claim that it never propagates. -/
theorem synthesis_failure_escapes_turn_handler :
    (process_turn cfgPlain envBadTts stActive).2.2 = .error "tts broken" := rfl

end JarvisSpec
